import Mathlib

/-!
Shallow embedding of the Gravity_Simulation repository
(`src/api/domain/vector2d.py`, `src/api/domain/celestial_body.py`,
`src/domain/gravity_simulation.py`, `src/api/tasks.py`) and proofs of the
specification claims about it.  Python `float` arithmetic is embedded as exact
real arithmetic (`ℝ`, with `Real.sqrt` for `** 0.5` / `math.sqrt`).
-/

namespace GravSim

/-- Embeds `Vector2D` from `src/api/domain/vector2d.py`: a 2D vector holding
`x` and `y` components. -/
structure Vector2D where
  x : ℝ
  y : ℝ

attribute [ext] Vector2D

/-- `Vector2D.__add__`: componentwise addition, returns a new vector. -/
def Vector2D.add (v w : Vector2D) : Vector2D := ⟨v.x + w.x, v.y + w.y⟩

/-- `Vector2D.__sub__`: componentwise subtraction, returns a new vector. -/
def Vector2D.sub (v w : Vector2D) : Vector2D := ⟨v.x - w.x, v.y - w.y⟩

/-- `Vector2D.__mul__` (and `__rmul__`): scalar multiplication. -/
def Vector2D.mul (v : Vector2D) (k : ℝ) : Vector2D := ⟨v.x * k, v.y * k⟩

/-- `Vector2D.magnitude`: `math.sqrt(x**2 + y**2)`. -/
noncomputable def Vector2D.magnitude (v : Vector2D) : ℝ :=
  Real.sqrt (v.x ^ 2 + v.y ^ 2)

/-- `Vector2D.normalize`: unit vector in `v`'s direction, or the zero vector
when the magnitude is zero. -/
noncomputable def Vector2D.normalize (v : Vector2D) : Vector2D :=
  if v.magnitude = 0 then ⟨0, 0⟩
  else ⟨v.x / v.magnitude, v.y / v.magnitude⟩

/-- `Vector2D.copy`: a new vector with the same components. -/
def Vector2D.copy (v : Vector2D) : Vector2D := ⟨v.x, v.y⟩

/-- Sum of a list of vectors, accumulated left-to-right from the zero vector
(the way the Python loops accumulate `net_force_on_a`). -/
def vsum (l : List Vector2D) : Vector2D := l.foldl Vector2D.add ⟨0, 0⟩

/-- Embeds `CelestialBody` from `src/api/domain/celestial_body.py`: the fields
set by `CelestialBody.__init__`. -/
structure CelestialBody where
  id : String
  mass : ℝ
  position : Vector2D
  velocity : Vector2D
  radius : ℝ
  color : ℕ × ℕ × ℕ
  trail : List Vector2D
  max_trail_length : ℕ

/-- Embeds `CelestialBody.__init__`: raises `ValueError` when `mass <= 0` or
`radius <= 0`; otherwise produces a body with the given fields, an empty
trail, and `max_trail_length = 50`. -/
noncomputable def create_body (mass : ℝ) (position velocity : Vector2D)
    (radius : ℝ) (color : ℕ × ℕ × ℕ) (id : String) :
    Except String CelestialBody :=
  if mass ≤ 0 then Except.error "Mass must be positive."
  else if radius ≤ 0 then Except.error "Radius must be positive."
  else Except.ok
    { id := id, mass := mass, position := position, velocity := velocity,
      radius := radius, color := color, trail := [], max_trail_length := 50 }

/-- Embeds `CelestialBody.update_position`: move by `velocity * dt`, append a
copy of the new position to the trail, then pop the oldest entry if the trail
exceeds `max_trail_length`. -/
def CelestialBody.update_position (b : CelestialBody) (time_step : ℝ) :
    CelestialBody :=
  let new_position := b.position.add (b.velocity.mul time_step)
  let grown := b.trail ++ [new_position.copy]
  { b with
    position := new_position,
    trail := if b.max_trail_length < grown.length then grown.tail else grown }

/-- Embeds `CelestialBody.apply_force`: no-op when `mass == 0`; otherwise
`velocity += (force * (1/mass)) * dt`. -/
noncomputable def CelestialBody.apply_force (b : CelestialBody)
    (force : Vector2D) (time_step : ℝ) : CelestialBody :=
  if b.mass = 0 then b
  else { b with
    velocity := b.velocity.add ((force.mul (1 / b.mass)).mul time_step) }

/-- Embeds the state of `GravitySimulation` from
`src/domain/gravity_simulation.py`.  `net_forces_cache` embeds the private
`_net_forces` dictionary (represented index-aligned with `bodies`, which
matches the Python identity-keyed dict since each list slot is a distinct
object). -/
structure GravitySimulation where
  gravitational_constant : ℝ
  bodies : List CelestialBody
  epsilon : ℝ
  paused : Bool
  time_step_display : ℝ
  net_forces_cache : List Vector2D

/-- Embeds `GravitySimulation.add_body`: unconditional append. -/
def GravitySimulation.add_body (s : GravitySimulation) (b : CelestialBody) :
    GravitySimulation :=
  { s with bodies := s.bodies ++ [b] }

/-- The force that body `b` exerts on body `a` as computed inside the inner
loop of `GravitySimulation.calculate_net_forces`: softened distance
`distance_r = (dx^2 + dy^2 + epsilon) ** 0.5`, with a guard branch giving the
zero vector when `distance_r == 0`. -/
noncomputable def pair_force (G epsilon : ℝ) (a b : CelestialBody) : Vector2D :=
  let delta_position := b.position.sub a.position
  let distance_squared := delta_position.x ^ 2 + delta_position.y ^ 2
  let distance_r := Real.sqrt (distance_squared + epsilon)
  if distance_r = 0 then (Vector2D.mk 0 0).mul 0
  else
    (Vector2D.mk (delta_position.x / distance_r)
      (delta_position.y / distance_r)).mul
      (G * a.mass * b.mass / distance_r ^ 2)

/-- The net force on the body at index `i` (the body itself is skipped by the
`if i == j: continue` index test), accumulated over `enumerate(self.bodies)`
starting from `Vector2D(0, 0)`. -/
noncomputable def net_force_on (G epsilon : ℝ) (bodies : List CelestialBody)
    (i : ℕ) (a : CelestialBody) : Vector2D :=
  bodies.enum.foldl
    (fun acc jb =>
      if i = jb.1 then acc else acc.add (pair_force G epsilon a jb.2))
    ⟨0, 0⟩

/-- The mapping computed by `GravitySimulation.calculate_net_forces`, one net
force per body, index-aligned with `bodies`. -/
noncomputable def calculate_net_forces_result (s : GravitySimulation) :
    List Vector2D :=
  s.bodies.enum.map
    (fun ia => net_force_on s.gravitational_constant s.epsilon s.bodies ia.1 ia.2)

/-- Embeds `GravitySimulation.calculate_net_forces` with its one side effect:
it returns `current_forces` and stores it in `self._net_forces`. -/
noncomputable def GravitySimulation.calculate_net_forces
    (s : GravitySimulation) : List Vector2D × GravitySimulation :=
  let current_forces := calculate_net_forces_result s
  (current_forces, { s with net_forces_cache := current_forces })

/-- Embeds `GravitySimulation.update`: return unchanged when paused; otherwise
compute the forces once, then apply each body's force (velocity update) for
all bodies, then update all positions. -/
noncomputable def GravitySimulation.update (s : GravitySimulation)
    (time_step : ℝ) : GravitySimulation :=
  if s.paused then s
  else
    let step := s.calculate_net_forces
    let after_forces :=
      List.zipWith (fun b f => b.apply_force f time_step) step.2.bodies step.1
    let after_positions :=
      after_forces.map (fun b => b.update_position time_step)
    { step.2 with bodies := after_positions }

/-- Outcome of the `simulation.update(...)` call in one iteration of
`_run_simulation_update_loop` (`src/api/tasks.py`): it either returns normally
or raises an exception with a message. -/
inductive UpdateEvent where
  | ok : UpdateEvent
  | raises : String → UpdateEvent
deriving DecidableEq

/-- Outcome of the `await asyncio.sleep(...)` call in one iteration of
`_run_simulation_update_loop`: normal return, `asyncio.CancelledError`, or
some other exception with a message. -/
inductive SleepEvent where
  | ok : SleepEvent
  | cancelled : SleepEvent
  | raises : String → SleepEvent
deriving DecidableEq

/-- How one iteration of the `while not _simulation_task_should_stop` loop in
`_run_simulation_update_loop` ends: proceed to the next iteration (with the
messages logged this iteration), `break` out of the loop, or terminate the
whole coroutine with an uncaught exception. -/
inductive IterOutcome where
  | next_iteration : List String → IterOutcome
  | break_out : List String → IterOutcome
  | uncaught : String → IterOutcome
deriving DecidableEq

/-- Embeds the control flow of one iteration of the loop body in
`_run_simulation_update_loop` (`src/api/tasks.py`, lines 28-48).  The
`simulation.update(...)` call is guarded by `if not simulation.paused` and
stands OUTSIDE the `try` block; the `try` block wraps only
`await asyncio.sleep(...)`, whose `except asyncio.CancelledError` arm logs
and breaks and whose `except Exception` arm logs and continues. -/
def loop_body (paused : Bool) (update_call : UpdateEvent)
    (sleep_call : SleepEvent) : IterOutcome :=
  match (if paused then UpdateEvent.ok else update_call) with
  | UpdateEvent.raises msg => IterOutcome.uncaught msg
  | UpdateEvent.ok =>
    match sleep_call with
    | SleepEvent.ok => IterOutcome.next_iteration []
    | SleepEvent.cancelled =>
        IterOutcome.break_out ["Background simulation update loop cancelled."]
    | SleepEvent.raises msg =>
        IterOutcome.next_iteration ["Error in simulation update loop: " ++ msg]

/-- The per-pair force written the way the specification states it
(`(displacement / distance_r) * (G * m_a * m_b / distance_r^2)` with
`distance_r = sqrt(dx^2 + dy^2 + epsilon)`), with no zero-distance branch; to
be compared with `pair_force` from the source. -/
noncomputable def spec_force_term (G epsilon : ℝ) (a b : CelestialBody) :
    Vector2D :=
  let displacement := b.position.sub a.position
  let distance_r :=
    Real.sqrt (displacement.x ^ 2 + displacement.y ^ 2 + epsilon)
  (Vector2D.mk (displacement.x / distance_r)
    (displacement.y / distance_r)).mul
    (G * a.mass * b.mass / distance_r ^ 2)

/-- Repeated `update_position` calls, one per time step in the list. -/
def iterate_update_position (b : CelestialBody) (dts : List ℝ) :
    CelestialBody :=
  dts.foldl CelestialBody.update_position b

/-- A concrete body used to instantiate witness theorems. -/
def sample_body : CelestialBody :=
  ⟨"a", 1, ⟨0, 0⟩, ⟨1, 0⟩, 1, (255, 255, 255), [], 50⟩

/-- A second concrete body used to instantiate witness theorems. -/
def sample_body2 : CelestialBody :=
  ⟨"b", 2, ⟨3, 4⟩, ⟨0, 0⟩, 1, (0, 0, 255), [], 50⟩

/-- A concrete running (not paused) one-body simulation state. -/
def sample_sim : GravitySimulation :=
  ⟨1, [sample_body], 1, false, 0, []⟩

/-- A concrete paused simulation state. -/
def sample_sim_paused : GravitySimulation :=
  ⟨1, [sample_body], 1, true, 0, []⟩

/-- A concrete running two-body simulation state. -/
def sample_sim2 : GravitySimulation :=
  ⟨100, [sample_body, sample_body2], 1, false, 0, []⟩

/-! ### Helper lemmas -/

theorem Vector2D.add_zero_vec (v : Vector2D) : v.add ⟨0, 0⟩ = v := by
  ext <;> simp [Vector2D.add]

theorem Vector2D.zero_vec_add (v : Vector2D) : Vector2D.add ⟨0, 0⟩ v = v := by
  ext <;> simp [Vector2D.add]

theorem Vector2D.add_assoc' (u v w : Vector2D) :
    (u.add v).add w = u.add (v.add w) := by
  ext <;> simp [Vector2D.add] <;> ring

theorem foldl_vadd_eq (l : List Vector2D) :
    ∀ z : Vector2D, l.foldl Vector2D.add z = z.add (vsum l) := by
  induction l with
  | nil => intro z; simp [vsum, Vector2D.add_zero_vec]
  | cons x xs ih =>
      intro z
      simp only [vsum, List.foldl_cons] at *
      rw [ih (z.add x), ih (Vector2D.add ⟨0, 0⟩ x), Vector2D.zero_vec_add,
        Vector2D.add_assoc']

theorem vsum_cons (x : Vector2D) (xs : List Vector2D) :
    vsum (x :: xs) = x.add (vsum xs) := by
  simp only [vsum, List.foldl_cons]
  rw [foldl_vadd_eq, Vector2D.zero_vec_add, vsum]

theorem apply_force_velocity (b : CelestialBody) (f : Vector2D) (dt : ℝ)
    (h : b.mass ≠ 0) :
    (b.apply_force f dt).velocity = b.velocity.add ((f.mul (1 / b.mass)).mul dt) := by
  simp [CelestialBody.apply_force, h]

theorem apply_force_position (b : CelestialBody) (f : Vector2D) (dt : ℝ) :
    (b.apply_force f dt).position = b.position := by
  unfold CelestialBody.apply_force
  split <;> rfl

theorem update_position_position (b : CelestialBody) (dt : ℝ) :
    (b.update_position dt).position = b.position.add (b.velocity.mul dt) := rfl

theorem update_position_max (b : CelestialBody) (dt : ℝ) :
    (b.update_position dt).max_trail_length = b.max_trail_length := rfl

/-! ### Claim theorems -/

/-- C3: when `paused` is true, `update(dt)` is a strict no-op for every dt: the
whole simulation state, bodies and all their fields included, is unchanged. -/
theorem update_paused_noop (s : GravitySimulation) (dt : ℝ)
    (h : s.paused = true) : s.update dt = s := by
  simp [GravitySimulation.update, h]

/-- Witness for C3 at a concrete paused state and dt = -2. -/
theorem update_paused_noop_witness :
    GravitySimulation.update sample_sim_paused (-2) = sample_sim_paused :=
  update_paused_noop sample_sim_paused (-2) rfl

/-- C4: the claim says an exception raised inside `simulation.update` during a
tick is caught and logged and the loop continues; in the code the `try` block
wraps only `asyncio.sleep`, so an update exception ends the iteration as an
uncaught exception that terminates the loop.  This theorem evaluates the loop
body at such a failing input. -/
theorem loop_body_update_exception_uncaught :
    loop_body false (UpdateEvent.raises "boom") SleepEvent.ok
      = IterOutcome.uncaught "boom" := rfl

/-- C6: `apply_force(f, dt)` changes velocity by exactly `(f * (1/m)) * dt`
when the mass is nonzero, and is a silent no-op (the whole body unchanged)
when the mass is zero. -/
theorem apply_force_spec (b : CelestialBody) (f : Vector2D) (dt : ℝ) :
    (b.mass ≠ 0 →
      (b.apply_force f dt).velocity
        = b.velocity.add ((f.mul (1 / b.mass)).mul dt)) ∧
    (b.mass = 0 → b.apply_force f dt = b) := by
  constructor
  · intro h; exact apply_force_velocity b f dt h
  · intro h; simp [CelestialBody.apply_force, h]

/-- Witness for C6 at a concrete body of mass 2, force (4, 0), dt = 3. -/
theorem apply_force_spec_witness :
    (sample_body2.apply_force ⟨4, 0⟩ 3).velocity
      = (Vector2D.mk 0 0).add (((Vector2D.mk 4 0).mul (1 / 2)).mul 3) :=
  (apply_force_spec sample_body2 ⟨4, 0⟩ 3).1 (by norm_num [sample_body2])

/-- C10: `apply_force` changes no field other than `velocity`, and
`update_position` changes no field other than `position` and `trail`. -/
theorem body_ops_frame (b : CelestialBody) (f : Vector2D) (dt : ℝ) :
    ((b.apply_force f dt).position = b.position ∧
     (b.apply_force f dt).trail = b.trail ∧
     (b.apply_force f dt).mass = b.mass ∧
     (b.apply_force f dt).radius = b.radius ∧
     (b.apply_force f dt).color = b.color ∧
     (b.apply_force f dt).id = b.id ∧
     (b.apply_force f dt).max_trail_length = b.max_trail_length) ∧
    ((b.update_position dt).velocity = b.velocity ∧
     (b.update_position dt).mass = b.mass ∧
     (b.update_position dt).radius = b.radius ∧
     (b.update_position dt).color = b.color ∧
     (b.update_position dt).id = b.id ∧
     (b.update_position dt).max_trail_length = b.max_trail_length) := by
  constructor
  · unfold CelestialBody.apply_force
    split <;> exact ⟨rfl, rfl, rfl, rfl, rfl, rfl, rfl⟩
  · exact ⟨rfl, rfl, rfl, rfl, rfl, rfl⟩

/-- C8: `normalize` returns the exact zero vector when the magnitude is zero
(raising no error), and otherwise returns `(x / magnitude, y / magnitude)`,
whose magnitude is exactly 1. -/
theorem normalize_spec (v : Vector2D) :
    (v.magnitude = 0 → v.normalize = ⟨0, 0⟩) ∧
    (v.magnitude ≠ 0 →
      v.normalize = ⟨v.x / v.magnitude, v.y / v.magnitude⟩ ∧
      v.normalize.magnitude = 1) := by
  constructor
  · intro h; simp [Vector2D.normalize, h]
  · intro h
    have hform : v.normalize = ⟨v.x / v.magnitude, v.y / v.magnitude⟩ := by
      simp [Vector2D.normalize, h]
    refine ⟨hform, ?_⟩
    have hnn : (0 : ℝ) ≤ v.x ^ 2 + v.y ^ 2 := by positivity
    have hsq : v.magnitude ^ 2 = v.x ^ 2 + v.y ^ 2 := Real.sq_sqrt hnn
    rw [hform]
    show Real.sqrt ((v.x / v.magnitude) ^ 2 + (v.y / v.magnitude) ^ 2) = 1
    rw [div_pow, div_pow, div_add_div_same, ← hsq,
      div_self (pow_ne_zero 2 h), Real.sqrt_one]

/-- Witness for C8 at the zero vector. -/
theorem normalize_spec_witness :
    Vector2D.normalize ⟨0, 0⟩ = ⟨0, 0⟩ :=
  (normalize_spec ⟨0, 0⟩).1 (by simp [Vector2D.magnitude])

/-- C7: body construction fails if and only if `mass <= 0` or `radius <= 0`;
on failure no body is produced, and on success the body's fields equal the
arguments (nothing clamped) and its trail is empty. -/
theorem create_body_spec (mass : ℝ) (position velocity : Vector2D)
    (radius : ℝ) (color : ℕ × ℕ × ℕ) (id : String) :
    ((∃ e, create_body mass position velocity radius color id
        = Except.error e) ↔ (mass ≤ 0 ∨ radius ≤ 0)) ∧
    (¬ (mass ≤ 0 ∨ radius ≤ 0) →
      create_body mass position velocity radius color id
        = Except.ok ⟨id, mass, position, velocity, radius, color, [], 50⟩) := by
  by_cases h1 : mass ≤ 0
  · constructor
    · simp only [create_body, if_pos h1]
      exact ⟨fun _ => Or.inl h1, fun _ => ⟨_, rfl⟩⟩
    · intro h; exact absurd (Or.inl h1) h
  · by_cases h2 : radius ≤ 0
    · constructor
      · simp only [create_body, if_neg h1, if_pos h2]
        exact ⟨fun _ => Or.inr h2, fun _ => ⟨_, rfl⟩⟩
      · intro h; exact absurd (Or.inr h2) h
    · constructor
      · simp only [create_body, if_neg h1, if_neg h2]
        constructor
        · rintro ⟨e, he⟩; cases he
        · rintro (h | h); exact absurd h h1; exact absurd h h2
      · intro _; simp only [create_body, if_neg h1, if_neg h2]

/-- Witness for C7: a concrete successful construction with mass 1, radius 2. -/
theorem create_body_spec_witness :
    create_body 1 ⟨0, 0⟩ ⟨0, 0⟩ 2 (1, 2, 3) "w"
      = Except.ok ⟨"w", 1, ⟨0, 0⟩, ⟨0, 0⟩, 2, (1, 2, 3), [], 50⟩ :=
  (create_body_spec 1 ⟨0, 0⟩ ⟨0, 0⟩ 2 (1, 2, 3) "w").2 (by norm_num)

theorem Vector2D.copy_eq (v : Vector2D) : v.copy = v := rfl

theorem update_position_trail (b : CelestialBody) (dt : ℝ) :
    (b.update_position dt).trail =
      (if b.max_trail_length
          < (b.trail ++ [b.position.add (b.velocity.mul dt)]).length
       then (b.trail ++ [b.position.add (b.velocity.mul dt)]).tail
       else b.trail ++ [b.position.add (b.velocity.mul dt)]) := rfl

theorem update_position_len_le (b : CelestialBody) (dt : ℝ)
    (h : b.trail.length ≤ b.max_trail_length) :
    (b.update_position dt).trail.length ≤ b.max_trail_length := by
  rw [update_position_trail]
  split
  · simp only [List.length_tail, List.length_append, List.length_cons,
      List.length_nil]
    omega
  · rename_i hlt
    simp only [List.length_append, List.length_cons, List.length_nil] at hlt ⊢
    omega

theorem update_position_len_eq (b : CelestialBody) (dt : ℝ)
    (h : b.trail.length = b.max_trail_length) :
    (b.update_position dt).trail.length = b.max_trail_length := by
  rw [update_position_trail, if_pos]
  · simp only [List.length_tail, List.length_append, List.length_cons,
      List.length_nil]
    omega
  · simp only [List.length_append, List.length_cons, List.length_nil]
    omega

theorem update_position_last (b : CelestialBody) (dt : ℝ)
    (hmax : 1 ≤ b.max_trail_length) :
    (b.update_position dt).trail.getLast? = some (b.update_position dt).position := by
  rw [update_position_trail, update_position_position]
  split
  · rename_i hlt
    cases htr : b.trail with
    | nil =>
        rw [htr] at hlt
        simp only [List.nil_append, List.length_cons, List.length_nil] at hlt
        omega
    | cons hd tl =>
        simp only [List.cons_append, List.tail_cons]
        exact List.getLast?_concat _
  · exact List.getLast?_concat _

theorem iterate_cons (b : CelestialBody) (d : ℝ) (dts : List ℝ) :
    iterate_update_position b (d :: dts)
      = iterate_update_position (b.update_position d) dts := rfl

theorem iterate_max (dts : List ℝ) :
    ∀ b : CelestialBody,
      (iterate_update_position b dts).max_trail_length = b.max_trail_length := by
  induction dts with
  | nil => intro b; rfl
  | cons d rest ih =>
      intro b
      rw [iterate_cons, ih, update_position_max]

theorem iterate_len_le (dts : List ℝ) :
    ∀ b : CelestialBody, b.trail.length ≤ b.max_trail_length →
      (iterate_update_position b dts).trail.length ≤ b.max_trail_length := by
  induction dts with
  | nil => intro b h; exact h
  | cons d rest ih =>
      intro b h
      rw [iterate_cons]
      have h' : (b.update_position d).trail.length
          ≤ (b.update_position d).max_trail_length := by
        rw [update_position_max]; exact update_position_len_le b d h
      have := ih (b.update_position d) h'
      rwa [update_position_max] at this

theorem iterate_len_eq (dts : List ℝ) :
    ∀ b : CelestialBody, b.trail.length = b.max_trail_length →
      (iterate_update_position b dts).trail.length = b.max_trail_length := by
  induction dts with
  | nil => intro b h; exact h
  | cons d rest ih =>
      intro b h
      rw [iterate_cons]
      have h' : (b.update_position d).trail.length
          = (b.update_position d).max_trail_length := by
        rw [update_position_max]; exact update_position_len_eq b d h
      have := ih (b.update_position d) h'
      rwa [update_position_max] at this

theorem iterate_last (dts : List ℝ) :
    ∀ b : CelestialBody, dts ≠ [] → 1 ≤ b.max_trail_length →
      (iterate_update_position b dts).trail.getLast? =
        some (iterate_update_position b dts).position := by
  induction dts with
  | nil => intro b h _; exact absurd rfl h
  | cons d rest ih =>
      intro b _ hmax
      cases rest with
      | nil => exact update_position_last b d hmax
      | cons e es =>
          have hmax' : 1 ≤ (b.update_position d).max_trail_length := by
            rw [update_position_max]; exact hmax
          exact ih (b.update_position d) (by simp) hmax'

/-- C5: starting from a trail of length at most `max_trail_length`, after any
number of `update_position` calls the trail length never exceeds
`max_trail_length`; once the cap is reached the length stays exactly
`max_trail_length`; the newest (last, since the trail is oldest-first) entry
equals the post-move position of the most recent call; and each call appends
the post-move position first and only then evicts exactly the oldest entry
when the bound is exceeded. -/
theorem trail_invariant (b : CelestialBody) (dts : List ℝ)
    (hb : b.trail.length ≤ b.max_trail_length) :
    (iterate_update_position b dts).trail.length ≤ b.max_trail_length ∧
    (1 ≤ b.max_trail_length → dts ≠ [] →
      (iterate_update_position b dts).trail.getLast? =
        some (iterate_update_position b dts).position) ∧
    (b.trail.length = b.max_trail_length →
      (iterate_update_position b dts).trail.length = b.max_trail_length) ∧
    (∀ (c : CelestialBody) (dt : ℝ),
      (c.update_position dt).trail =
        (if c.max_trail_length
            < (c.trail ++ [c.position.add (c.velocity.mul dt)]).length
         then (c.trail ++ [c.position.add (c.velocity.mul dt)]).tail
         else c.trail ++ [c.position.add (c.velocity.mul dt)])) :=
  ⟨iterate_len_le dts b hb,
   fun hmax hne => iterate_last dts b hne hmax,
   fun heq => iterate_len_eq dts b heq,
   fun c dt => update_position_trail c dt⟩

/-- Witness for C5: two `update_position` calls on a concrete body keep the
trail within the cap. -/
theorem trail_invariant_witness :
    (iterate_update_position sample_body [1, 1]).trail.length
      ≤ sample_body.max_trail_length :=
  (trail_invariant sample_body [1, 1] (by simp [sample_body])).1

/-- C9: `calculate_net_forces()` is idempotent and read-only: two consecutive
calls return the same mapping, and neither call changes the bodies list (hence
no body's position, velocity, mass, or trail), the gravitational constant,
epsilon, the paused flag, or the displayed time step. -/
theorem calculate_net_forces_idempotent (s : GravitySimulation) :
    (s.calculate_net_forces.2.calculate_net_forces).1
      = s.calculate_net_forces.1 ∧
    s.calculate_net_forces.2.bodies = s.bodies ∧
    s.calculate_net_forces.2.gravitational_constant
      = s.gravitational_constant ∧
    s.calculate_net_forces.2.epsilon = s.epsilon ∧
    s.calculate_net_forces.2.paused = s.paused ∧
    s.calculate_net_forces.2.time_step_display = s.time_step_display ∧
    (s.calculate_net_forces.2.calculate_net_forces).2.bodies = s.bodies ∧
    (s.calculate_net_forces.2.calculate_net_forces).2.gravitational_constant
      = s.gravitational_constant ∧
    (s.calculate_net_forces.2.calculate_net_forces).2.epsilon = s.epsilon ∧
    (s.calculate_net_forces.2.calculate_net_forces).2.paused = s.paused ∧
    (s.calculate_net_forces.2.calculate_net_forces).2.time_step_display
      = s.time_step_display :=
  ⟨rfl, rfl, rfl, rfl, rfl, rfl, rfl, rfl, rfl, rfl, rfl⟩

/-- C1: when not paused, `update(dt)` first computes all net forces from the
pre-step state, then applies each body's force, and only then updates each
position; consequently the body at index `i` ends the step as
`(apply_force; update_position)` of its pre-step value with the pre-step
force, and its new position is its old position plus the post-force velocity
times `dt` (semi-implicit Euler). -/
theorem update_step_order (s : GravitySimulation) (dt : ℝ)
    (h : s.paused = false) (i : ℕ) (b : CelestialBody) (f : Vector2D)
    (hb : s.bodies[i]? = some b)
    (hf : (calculate_net_forces_result s)[i]? = some f) :
    (s.update dt).bodies[i]?
      = some ((b.apply_force f dt).update_position dt) ∧
    ((b.apply_force f dt).update_position dt).position
      = b.position.add ((b.apply_force f dt).velocity.mul dt) := by
  constructor
  · have key : (s.update dt).bodies
        = (List.zipWith (fun c g => c.apply_force g dt) s.bodies
            (calculate_net_forces_result s)).map
            (fun c => c.update_position dt) := by
      simp only [GravitySimulation.update, h, Bool.false_eq_true, if_false]
      rfl
    rw [key]
    simp only [List.getElem?_map, List.getElem?_zipWith, hb, hf, Option.map_some']
  · rw [update_position_position, apply_force_position]

/-- Witness for C1 at a concrete one-body running simulation with dt = 1. -/
theorem update_step_order_witness :
    (sample_sim.update 1).bodies[0]?
      = some ((sample_body.apply_force ⟨0, 0⟩ 1).update_position 1) ∧
    ((sample_body.apply_force ⟨0, 0⟩ 1).update_position 1).position
      = sample_body.position.add
          ((sample_body.apply_force ⟨0, 0⟩ 1).velocity.mul 1) :=
  update_step_order sample_sim 1 rfl 0 sample_body ⟨0, 0⟩ rfl rfl

theorem pair_force_eq_spec (G epsilon : ℝ) (heps : 0 < epsilon)
    (a b : CelestialBody) :
    pair_force G epsilon a b = spec_force_term G epsilon a b := by
  have hpos : 0 < Real.sqrt ((b.position.sub a.position).x ^ 2
      + (b.position.sub a.position).y ^ 2 + epsilon) :=
    Real.sqrt_pos.mpr (by positivity)
  simp only [pair_force, spec_force_term]
  rw [if_neg hpos.ne']

theorem foldl_skip_eq_vsum (g : ℕ × CelestialBody → Vector2D) (i : ℕ) :
    ∀ (l : List (ℕ × CelestialBody)) (z : Vector2D),
      l.foldl (fun acc jb => if i = jb.1 then acc else acc.add (g jb)) z
        = z.add (vsum ((l.filter (fun jb => jb.1 ≠ i)).map g)) := by
  intro l
  induction l with
  | nil => intro z; simp [vsum, Vector2D.add_zero_vec]
  | cons jb rest ih =>
      intro z
      by_cases hij : i = jb.1
      · rw [List.foldl_cons, if_pos hij, ih,
          List.filter_cons_of_neg (by simp [hij.symm])]
      · rw [List.foldl_cons, if_neg hij, ih,
          List.filter_cons_of_pos (by simpa using fun hc => hij hc.symm),
          List.map_cons, vsum_cons, ← Vector2D.add_assoc']

theorem enumFrom_getElem? {α : Type} :
    ∀ (l : List α) (n i : ℕ),
      (l.enumFrom n)[i]? = l[i]?.map (fun x => (n + i, x)) := by
  intro l
  induction l with
  | nil => intro n i; simp
  | cons x xs ih =>
      intro n i
      cases i with
      | zero => simp [List.enumFrom]
      | succ j =>
          simp only [List.enumFrom, List.getElem?_cons_succ, ih (n + 1) j]
          have hn : n + 1 + j = n + (j + 1) := by omega
          rw [hn]

theorem cnf_result_getElem (s : GravitySimulation) (i : ℕ)
    (a : CelestialBody) (ha : s.bodies[i]? = some a) :
    (calculate_net_forces_result s)[i]?
      = some (net_force_on s.gravitational_constant s.epsilon s.bodies i a) := by
  unfold calculate_net_forces_result
  rw [List.getElem?_map, List.enum, enumFrom_getElem? s.bodies 0 i, ha]
  simp

/-- C2: when `epsilon > 0`, the net force computed for the body at index `i`
is the sum over every other body (every other index) of the spec's formula
`(displacement / distance_r) * (G * m_a * m_b / distance_r^2)` with
`distance_r = sqrt(dx^2 + dy^2 + epsilon)`, and the softened distance is
never zero for any pair, so no division by zero occurs even when two bodies
coincide. -/
theorem net_forces_formula (s : GravitySimulation) (heps : 0 < s.epsilon)
    (i : ℕ) (a : CelestialBody) (ha : s.bodies[i]? = some a) :
    (calculate_net_forces_result s)[i]?
      = some (vsum ((s.bodies.enum.filter (fun jb => jb.1 ≠ i)).map
          (fun jb =>
            spec_force_term s.gravitational_constant s.epsilon a jb.2))) ∧
    (∀ b c : CelestialBody, b ∈ s.bodies → c ∈ s.bodies →
      Real.sqrt ((c.position.sub b.position).x ^ 2
        + (c.position.sub b.position).y ^ 2 + s.epsilon) ≠ 0) := by
  constructor
  · rw [cnf_result_getElem s i a ha]
    have hfun :
        (fun jb : ℕ × CelestialBody =>
            pair_force s.gravitational_constant s.epsilon a jb.2)
          = (fun jb : ℕ × CelestialBody =>
            spec_force_term s.gravitational_constant s.epsilon a jb.2) :=
      funext fun jb =>
        pair_force_eq_spec s.gravitational_constant s.epsilon heps a jb.2
    unfold net_force_on
    rw [foldl_skip_eq_vsum
        (fun jb : ℕ × CelestialBody =>
          pair_force s.gravitational_constant s.epsilon a jb.2) i
        s.bodies.enum ⟨0, 0⟩,
      Vector2D.zero_vec_add, hfun]
  · intro b c _ _
    exact (Real.sqrt_pos.mpr (by positivity)).ne'

/-- Witness for C2 at a concrete two-body running simulation with epsilon 1. -/
theorem net_forces_formula_witness :
    (calculate_net_forces_result sample_sim2)[0]?
      = some (vsum ((sample_sim2.bodies.enum.filter (fun jb => jb.1 ≠ 0)).map
          (fun jb =>
            spec_force_term sample_sim2.gravitational_constant
              sample_sim2.epsilon sample_body jb.2))) :=
  (net_forces_formula sample_sim2 (by norm_num [sample_sim2]) 0
    sample_body rfl).1

end GravSim

